import Mathlib

/-!
Verification of the Velox runtime-wry FFI surface.

The repository consists of a C ABI header (`velox_runtime_wry_ffi.h`) and a
small C translation unit (`shim.c`) containing the two custom-protocol
trampolines and a linkage-helper function.  The declarations of the header and
the references made by the linkage helper are embedded below as explicit
tables; the trampolines are embedded as Lean functions parametric in the
external host bridge.  Behaviour implemented in the Rust static library (which
is not part of this repository) is modelled from the specification where a
claim needs it; such definitions carry a `Modelled from the spec:` comment.
-/

namespace Velox

/-- The C types appearing in the ABI header, embedded syntactically.
Function-pointer typedefs are referred to by their typedef name. -/
inductive CType where
  | boolT
  | charT
  | u8
  | u16
  | u32
  | f64
  | sizeT
  | cstr
  | cstrMut
  | voidPtr
  | voidT
  | ptr (t : CType)
  | structT (n : String)
  | enumT (n : String)
  | funPtrT (n : String)
deriving DecidableEq, Repr

/-- A function declaration of the ABI header: name, argument types, return
type, and whether the declaration sits inside the `#if defined(__APPLE__)`
block of the header. -/
structure CFunDecl where
  name : String
  args : List CType
  ret : CType
  appleOnly : Bool
deriving DecidableEq, Repr

/-- Pointer to one of the opaque handle structs. -/
def sptr (n : String) : CType := .ptr (.structT n)

def elp : CType := sptr ("VeloxEventLoopHandle")
def prp : CType := sptr ("VeloxEventLoopProxyHandle")
def wnp : CType := sptr ("VeloxWindowHandle")
def wvp : CType := sptr ("VeloxWebviewHandle")
def trp : CType := sptr ("VeloxTrayHandle")
def mbp : CType := sptr ("VeloxMenuBarHandle")
def smp : CType := sptr ("VeloxSubmenuHandle")
def mip : CType := sptr ("VeloxMenuItemHandle")
def cmp : CType := sptr ("VeloxCheckMenuItemHandle")
def sep : CType := sptr ("VeloxSeparatorHandle")

set_option maxHeartbeats 1000000 in
/-- First part of the header's function declarations (versions, event loop,
window). -/
def headerFunsA : List CFunDecl := [
  ⟨"velox_runtime_wry_library_name", [], .cstr, false⟩,
  ⟨"velox_runtime_wry_crate_version", [], .cstr, false⟩,
  ⟨"velox_runtime_wry_webview_version", [], .cstr, false⟩,
  ⟨"velox_event_loop_new", [], elp, false⟩,
  ⟨"velox_event_loop_free", [elp], .voidT, false⟩,
  ⟨"velox_event_loop_pump", [elp, .funPtrT ("VeloxEventLoopCallback"), .voidPtr], .voidT, false⟩,
  ⟨"velox_event_loop_create_proxy", [elp], prp, false⟩,
  ⟨"velox_event_loop_proxy_request_exit", [prp], .boolT, false⟩,
  ⟨"velox_event_loop_proxy_send_user_event", [prp, .cstr], .boolT, false⟩,
  ⟨"velox_event_loop_proxy_free", [prp], .voidT, false⟩,
  ⟨"velox_window_build", [elp, .ptr (.structT ("VeloxWindowConfig"))], wnp, false⟩,
  ⟨"velox_window_free", [wnp], .voidT, false⟩,
  ⟨"velox_window_identifier", [wnp], .cstr, false⟩,
  ⟨"velox_window_set_title", [wnp, .cstr], .boolT, false⟩,
  ⟨"velox_window_set_fullscreen", [wnp, .boolT], .boolT, false⟩,
  ⟨"velox_window_set_decorations", [wnp, .boolT], .boolT, false⟩,
  ⟨"velox_window_set_resizable", [wnp, .boolT], .boolT, false⟩,
  ⟨"velox_window_set_always_on_top", [wnp, .boolT], .boolT, false⟩,
  ⟨"velox_window_set_always_on_bottom", [wnp, .boolT], .boolT, false⟩,
  ⟨"velox_window_set_visible_on_all_workspaces", [wnp, .boolT], .boolT, false⟩,
  ⟨"velox_window_set_content_protected", [wnp, .boolT], .boolT, false⟩,
  ⟨"velox_window_set_visible", [wnp, .boolT], .boolT, false⟩,
  ⟨"velox_window_set_maximized", [wnp, .boolT], .boolT, false⟩,
  ⟨"velox_window_set_minimized", [wnp, .boolT], .boolT, false⟩,
  ⟨"velox_window_set_minimizable", [wnp, .boolT], .boolT, false⟩,
  ⟨"velox_window_set_maximizable", [wnp, .boolT], .boolT, false⟩,
  ⟨"velox_window_set_closable", [wnp, .boolT], .boolT, false⟩,
  ⟨"velox_window_set_skip_taskbar", [wnp, .boolT], .boolT, false⟩,
  ⟨"velox_window_set_background_color", [wnp, .ptr (.structT ("VeloxColor"))], .boolT, false⟩,
  ⟨"velox_window_set_theme", [wnp, .enumT ("VeloxWindowTheme")], .boolT, false⟩,
  ⟨"velox_window_title", [wnp], .cstr, false⟩,
  ⟨"velox_window_is_fullscreen", [wnp], .boolT, false⟩,
  ⟨"velox_window_is_focused", [wnp], .boolT, false⟩,
  ⟨"velox_window_is_maximized", [wnp], .boolT, false⟩,
  ⟨"velox_window_is_minimized", [wnp], .boolT, false⟩,
  ⟨"velox_window_is_visible", [wnp], .boolT, false⟩,
  ⟨"velox_window_is_resizable", [wnp], .boolT, false⟩,
  ⟨"velox_window_is_decorated", [wnp], .boolT, false⟩,
  ⟨"velox_window_is_always_on_top", [wnp], .boolT, false⟩,
  ⟨"velox_window_is_minimizable", [wnp], .boolT, false⟩,
  ⟨"velox_window_is_maximizable", [wnp], .boolT, false⟩,
  ⟨"velox_window_is_closable", [wnp], .boolT, false⟩,
  ⟨"velox_window_scale_factor", [wnp, .ptr .f64], .boolT, false⟩,
  ⟨"velox_window_inner_position", [wnp, .ptr (.structT ("VeloxPoint"))], .boolT, false⟩,
  ⟨"velox_window_outer_position", [wnp, .ptr (.structT ("VeloxPoint"))], .boolT, false⟩,
  ⟨"velox_window_inner_size", [wnp, .ptr (.structT ("VeloxSize"))], .boolT, false⟩,
  ⟨"velox_window_outer_size", [wnp, .ptr (.structT ("VeloxSize"))], .boolT, false⟩,
  ⟨"velox_window_current_monitor", [wnp], .cstr, false⟩,
  ⟨"velox_window_primary_monitor", [wnp], .cstr, false⟩,
  ⟨"velox_window_available_monitors", [wnp], .cstr, false⟩,
  ⟨"velox_window_monitor_from_point", [wnp, .structT ("VeloxPoint")], .cstr, false⟩,
  ⟨"velox_window_cursor_position", [wnp, .ptr (.structT ("VeloxPoint"))], .boolT, false⟩,
  ⟨"velox_window_request_redraw", [wnp], .boolT, false⟩,
  ⟨"velox_window_set_size", [wnp, .f64, .f64], .boolT, false⟩,
  ⟨"velox_window_set_position", [wnp, .f64, .f64], .boolT, false⟩,
  ⟨"velox_window_set_min_size", [wnp, .f64, .f64], .boolT, false⟩,
  ⟨"velox_window_set_max_size", [wnp, .f64, .f64], .boolT, false⟩,
  ⟨"velox_window_request_user_attention", [wnp, .enumT ("VeloxUserAttentionType")], .boolT, false⟩,
  ⟨"velox_window_clear_user_attention", [wnp], .boolT, false⟩,
  ⟨"velox_window_focus", [wnp], .boolT, false⟩,
  ⟨"velox_window_set_focusable", [wnp, .boolT], .boolT, false⟩,
  ⟨"velox_window_set_cursor_grab", [wnp, .boolT], .boolT, false⟩,
  ⟨"velox_window_set_cursor_visible", [wnp, .boolT], .boolT, false⟩,
  ⟨"velox_window_set_cursor_position", [wnp, .f64, .f64], .boolT, false⟩,
  ⟨"velox_window_set_ignore_cursor_events", [wnp, .boolT], .boolT, false⟩,
  ⟨"velox_window_start_dragging", [wnp], .boolT, false⟩,
  ⟨"velox_window_start_resize_dragging", [wnp, .enumT ("VeloxResizeDirection")], .boolT, false⟩
]

set_option maxHeartbeats 1000000 in
/-- Second part of the header's function declarations (dialogs, webview,
tray). -/
def headerFunsB : List CFunDecl := [
  ⟨"velox_dialog_open", [.ptr (.structT ("VeloxDialogOpenOptions"))], .structT ("VeloxDialogSelection"), false⟩,
  ⟨"velox_dialog_save", [.ptr (.structT ("VeloxDialogSaveOptions"))], .structT ("VeloxDialogSelection"), false⟩,
  ⟨"velox_dialog_selection_free", [.structT ("VeloxDialogSelection")], .voidT, false⟩,
  ⟨"velox_dialog_message", [.ptr (.structT ("VeloxMessageDialogOptions"))], .boolT, false⟩,
  ⟨"velox_dialog_confirm", [.ptr (.structT ("VeloxConfirmDialogOptions"))], .boolT, false⟩,
  ⟨"velox_dialog_ask", [.ptr (.structT ("VeloxAskDialogOptions"))], .boolT, false⟩,
  ⟨"velox_dialog_prompt", [.ptr (.structT ("VeloxPromptDialogOptions"))], .structT ("VeloxPromptDialogResult"), false⟩,
  ⟨"velox_dialog_prompt_result_free", [.structT ("VeloxPromptDialogResult")], .voidT, false⟩,
  ⟨"velox_webview_build", [wnp, .ptr (.structT ("VeloxWebviewConfig"))], wvp, false⟩,
  ⟨"velox_webview_free", [wvp], .voidT, false⟩,
  ⟨"velox_webview_identifier", [wvp], .cstr, false⟩,
  ⟨"velox_webview_navigate", [wvp, .cstr], .boolT, false⟩,
  ⟨"velox_webview_reload", [wvp], .boolT, false⟩,
  ⟨"velox_webview_evaluate_script", [wvp, .cstr], .boolT, false⟩,
  ⟨"velox_webview_set_zoom", [wvp, .f64], .boolT, false⟩,
  ⟨"velox_webview_show", [wvp], .boolT, false⟩,
  ⟨"velox_webview_hide", [wvp], .boolT, false⟩,
  ⟨"velox_webview_clear_browsing_data", [wvp], .boolT, false⟩,
  ⟨"velox_webview_set_bounds", [wvp, .f64, .f64, .f64, .f64], .boolT, false⟩,
  ⟨"velox_tray_new", [.ptr (.structT ("VeloxTrayConfig"))], trp, false⟩,
  ⟨"velox_tray_free", [trp], .voidT, false⟩,
  ⟨"velox_tray_identifier", [trp], .cstr, false⟩,
  ⟨"velox_tray_set_title", [trp, .cstr], .boolT, false⟩,
  ⟨"velox_tray_set_tooltip", [trp, .cstr], .boolT, false⟩,
  ⟨"velox_tray_set_visible", [trp, .boolT], .boolT, false⟩,
  ⟨"velox_tray_set_show_menu_on_left_click", [trp, .boolT], .boolT, false⟩
]

set_option maxHeartbeats 1000000 in
/-- Third part of the header's function declarations (`__APPLE__`-gated
surface). -/
def headerFunsC : List CFunDecl := [
  ⟨"velox_event_loop_set_activation_policy", [elp, .enumT ("VeloxActivationPolicy")], .boolT, true⟩,
  ⟨"velox_event_loop_set_dock_visibility", [elp, .boolT], .boolT, true⟩,
  ⟨"velox_event_loop_hide_application", [elp], .boolT, true⟩,
  ⟨"velox_event_loop_show_application", [elp], .boolT, true⟩,
  ⟨"velox_menu_bar_new", [], mbp, true⟩,
  ⟨"velox_menu_bar_new_with_id", [.cstr], mbp, true⟩,
  ⟨"velox_menu_bar_free", [mbp], .voidT, true⟩,
  ⟨"velox_menu_bar_identifier", [mbp], .cstr, true⟩,
  ⟨"velox_menu_bar_append_submenu", [mbp, smp], .boolT, true⟩,
  ⟨"velox_menu_bar_set_app_menu", [mbp], .boolT, true⟩,
  ⟨"velox_submenu_new", [.cstr, .boolT], smp, true⟩,
  ⟨"velox_submenu_new_with_id", [.cstr, .cstr, .boolT], smp, true⟩,
  ⟨"velox_submenu_free", [smp], .voidT, true⟩,
  ⟨"velox_submenu_identifier", [smp], .cstr, true⟩,
  ⟨"velox_submenu_append_item", [smp, mip], .boolT, true⟩,
  ⟨"velox_menu_item_new", [.cstr, .cstr, .boolT, .cstr], mip, true⟩,
  ⟨"velox_menu_item_free", [mip], .voidT, true⟩,
  ⟨"velox_menu_item_set_enabled", [mip, .boolT], .boolT, true⟩,
  ⟨"velox_menu_item_is_enabled", [mip], .boolT, true⟩,
  ⟨"velox_menu_item_text", [mip], .cstr, true⟩,
  ⟨"velox_menu_item_set_text", [mip, .cstr], .boolT, true⟩,
  ⟨"velox_menu_item_set_accelerator", [mip, .cstr], .boolT, true⟩,
  ⟨"velox_menu_item_identifier", [mip], .cstr, true⟩,
  ⟨"velox_separator_new", [], sep, true⟩,
  ⟨"velox_separator_free", [sep], .voidT, true⟩,
  ⟨"velox_separator_identifier", [sep], .cstr, true⟩,
  ⟨"velox_submenu_append_separator", [smp, sep], .boolT, true⟩,
  ⟨"velox_check_menu_item_new", [.cstr, .cstr, .boolT, .boolT, .cstr], cmp, true⟩,
  ⟨"velox_check_menu_item_free", [cmp], .voidT, true⟩,
  ⟨"velox_check_menu_item_is_checked", [cmp], .boolT, true⟩,
  ⟨"velox_check_menu_item_set_checked", [cmp, .boolT], .boolT, true⟩,
  ⟨"velox_check_menu_item_is_enabled", [cmp], .boolT, true⟩,
  ⟨"velox_check_menu_item_set_enabled", [cmp, .boolT], .boolT, true⟩,
  ⟨"velox_check_menu_item_text", [cmp], .cstr, true⟩,
  ⟨"velox_check_menu_item_set_text", [cmp, .cstr], .boolT, true⟩,
  ⟨"velox_check_menu_item_set_accelerator", [cmp, .cstr], .boolT, true⟩,
  ⟨"velox_check_menu_item_identifier", [cmp], .cstr, true⟩,
  ⟨"velox_submenu_append_check_item", [smp, cmp], .boolT, true⟩,
  ⟨"velox_tray_set_menu", [trp, mbp], .boolT, true⟩,
  ⟨"velox_app_state_force_launched", [], .voidT, true⟩
]

/-- Every function declaration of `velox_runtime_wry_ffi.h`, in header order. -/
def headerFuns : List CFunDecl := headerFunsA ++ headerFunsB ++ headerFunsC

/-- The names the header declares when compiled with (`apple = true`) or
without the `__APPLE__` macro. -/
def declaredNames (apple : Bool) : List String :=
  (headerFuns.filter (fun f => !f.appleOnly || apple)).map (fun f => f.name)

/-- The function names referenced by `velox_runtime_wry_ffi_link_helper` in
`shim.c` outside any platform guard (lines 26-124), in source order. -/
def linkHelperBase : List String := [
  "velox_runtime_wry_library_name",
  "velox_runtime_wry_ffi_abi_version",
  "velox_runtime_wry_crate_version",
  "velox_runtime_wry_webview_version",
  "velox_event_loop_new",
  "velox_event_loop_free",
  "velox_event_loop_pump",
  "velox_event_loop_create_proxy",
  "velox_event_loop_proxy_request_exit",
  "velox_event_loop_proxy_send_user_event",
  "velox_event_loop_proxy_free",
  "velox_event_loop_set_activation_policy",
  "velox_event_loop_set_dock_visibility",
  "velox_event_loop_hide_application",
  "velox_event_loop_show_application",
  "velox_window_build",
  "velox_window_free",
  "velox_window_identifier",
  "velox_window_set_title",
  "velox_window_set_fullscreen",
  "velox_window_set_decorations",
  "velox_window_set_resizable",
  "velox_window_set_always_on_top",
  "velox_window_set_always_on_bottom",
  "velox_window_set_visible_on_all_workspaces",
  "velox_window_set_content_protected",
  "velox_window_set_visible",
  "velox_window_set_maximized",
  "velox_window_set_minimized",
  "velox_window_set_minimizable",
  "velox_window_set_maximizable",
  "velox_window_set_closable",
  "velox_window_set_skip_taskbar",
  "velox_window_set_background_color",
  "velox_window_set_theme",
  "velox_window_title",
  "velox_window_is_fullscreen",
  "velox_window_is_focused",
  "velox_window_is_maximized",
  "velox_window_is_minimized",
  "velox_window_is_visible",
  "velox_window_is_resizable",
  "velox_window_is_decorated",
  "velox_window_is_always_on_top",
  "velox_window_is_minimizable",
  "velox_window_is_maximizable",
  "velox_window_is_closable",
  "velox_window_scale_factor",
  "velox_window_inner_position",
  "velox_window_outer_position",
  "velox_window_inner_size",
  "velox_window_outer_size",
  "velox_window_current_monitor",
  "velox_window_primary_monitor",
  "velox_window_available_monitors",
  "velox_window_monitor_from_point",
  "velox_window_cursor_position",
  "velox_window_request_redraw",
  "velox_window_set_size",
  "velox_window_set_position",
  "velox_window_set_min_size",
  "velox_window_set_max_size",
  "velox_window_request_user_attention",
  "velox_window_clear_user_attention",
  "velox_window_focus",
  "velox_window_set_focusable",
  "velox_window_set_cursor_grab",
  "velox_window_set_cursor_visible",
  "velox_window_set_cursor_position",
  "velox_window_set_ignore_cursor_events",
  "velox_window_start_dragging",
  "velox_window_start_resize_dragging",
  "velox_custom_protocol_handler_trampoline",
  "velox_custom_protocol_response_free_trampoline",
  "velox_webview_build",
  "velox_webview_free",
  "velox_webview_navigate",
  "velox_webview_reload",
  "velox_webview_evaluate_script",
  "velox_webview_set_zoom",
  "velox_webview_show",
  "velox_webview_hide",
  "velox_webview_clear_browsing_data",
  "velox_dialog_open",
  "velox_dialog_save",
  "velox_dialog_selection_free",
  "velox_dialog_message",
  "velox_dialog_confirm",
  "velox_dialog_ask",
  "velox_dialog_prompt",
  "velox_dialog_prompt_result_free",
  "velox_tray_new",
  "velox_tray_free",
  "velox_tray_identifier",
  "velox_tray_set_title",
  "velox_tray_set_tooltip",
  "velox_tray_set_visible",
  "velox_tray_set_show_menu_on_left_click",
  "velox_tray_set_menu"
]

/-- The function names referenced by `velox_runtime_wry_ffi_link_helper`
inside its `#if defined(__APPLE__)` block (`shim.c` lines 126-192), in source
order. -/
def linkHelperApple : List String := [
  "velox_menu_bar_new",
  "velox_menu_bar_new_with_id",
  "velox_menu_bar_free",
  "velox_menu_bar_identifier",
  "velox_menu_bar_append_submenu",
  "velox_menu_bar_append",
  "velox_menu_bar_prepend",
  "velox_menu_bar_insert",
  "velox_menu_bar_remove",
  "velox_menu_bar_remove_at",
  "velox_menu_bar_popup",
  "velox_menu_bar_set_app_menu",
  "velox_submenu_new",
  "velox_submenu_new_with_id",
  "velox_submenu_free",
  "velox_submenu_identifier",
  "velox_submenu_text",
  "velox_submenu_set_text",
  "velox_submenu_is_enabled",
  "velox_submenu_set_enabled",
  "velox_submenu_set_native_icon",
  "velox_submenu_append_item",
  "velox_submenu_append",
  "velox_submenu_prepend",
  "velox_submenu_insert",
  "velox_submenu_remove",
  "velox_submenu_remove_at",
  "velox_submenu_popup",
  "velox_submenu_set_as_windows_menu_for_nsapp",
  "velox_submenu_set_as_help_menu_for_nsapp",
  "velox_menu_item_new",
  "velox_menu_item_free",
  "velox_menu_item_set_enabled",
  "velox_menu_item_is_enabled",
  "velox_menu_item_text",
  "velox_menu_item_set_text",
  "velox_menu_item_set_accelerator",
  "velox_menu_item_identifier",
  "velox_icon_menu_item_new",
  "velox_icon_menu_item_free",
  "velox_icon_menu_item_identifier",
  "velox_icon_menu_item_text",
  "velox_icon_menu_item_set_text",
  "velox_icon_menu_item_set_enabled",
  "velox_icon_menu_item_is_enabled",
  "velox_icon_menu_item_set_accelerator",
  "velox_icon_menu_item_set_native_icon",
  "velox_predefined_menu_item_new",
  "velox_predefined_menu_item_free",
  "velox_predefined_menu_item_identifier",
  "velox_predefined_menu_item_text",
  "velox_predefined_menu_item_set_text",
  "velox_separator_new",
  "velox_separator_free",
  "velox_separator_identifier",
  "velox_submenu_append_separator",
  "velox_check_menu_item_new",
  "velox_check_menu_item_free",
  "velox_check_menu_item_is_checked",
  "velox_check_menu_item_set_checked",
  "velox_check_menu_item_is_enabled",
  "velox_check_menu_item_set_enabled",
  "velox_check_menu_item_text",
  "velox_check_menu_item_set_text",
  "velox_check_menu_item_set_accelerator",
  "velox_check_menu_item_identifier",
  "velox_submenu_append_check_item"
]

/-- All names referenced by the link helper on a given platform. -/
def linkHelperRefs (apple : Bool) : List String :=
  linkHelperBase ++ (if apple then linkHelperApple else [])

/-- A struct declaration of the ABI header: name, fields (name and type), and
whether it sits inside the header's `__APPLE__` block. -/
structure CStructDecl where
  name : String
  fields : List (String × CType)
  appleOnly : Bool
deriving DecidableEq, Repr

set_option maxHeartbeats 1000000 in
/-- Every struct typedef of `velox_runtime_wry_ffi.h`, in header order. -/
def headerStructs : List CStructDecl := [
  ⟨"VeloxEventLoopHandle", [("_unused", .charT)], false⟩,
  ⟨"VeloxEventLoopProxyHandle", [("_unused", .charT)], false⟩,
  ⟨"VeloxWindowHandle", [("_unused", .charT)], false⟩,
  ⟨"VeloxWebviewHandle", [("_unused", .charT)], false⟩,
  ⟨"VeloxTrayHandle", [("_unused", .charT)], false⟩,
  ⟨"VeloxTrayConfig", [("identifier", .cstr), ("title", .cstr), ("tooltip", .cstr),
    ("visible", .boolT), ("show_menu_on_left_click", .boolT)], false⟩,
  ⟨"VeloxMenuBarHandle", [("_unused", .charT)], true⟩,
  ⟨"VeloxSubmenuHandle", [("_unused", .charT)], true⟩,
  ⟨"VeloxMenuItemHandle", [("_unused", .charT)], true⟩,
  ⟨"VeloxCheckMenuItemHandle", [("_unused", .charT)], true⟩,
  ⟨"VeloxSeparatorHandle", [("_unused", .charT)], true⟩,
  ⟨"VeloxWindowConfig", [("width", .u32), ("height", .u32), ("title", .cstr)], false⟩,
  ⟨"VeloxDialogFilter", [("label", .cstr), ("extensions", .ptr .cstr),
    ("extension_count", .sizeT)], false⟩,
  ⟨"VeloxDialogOpenOptions", [("title", .cstr), ("default_path", .cstr),
    ("filters", .ptr (.structT ("VeloxDialogFilter"))), ("filter_count", .sizeT),
    ("allow_directories", .boolT), ("allow_multiple", .boolT)], false⟩,
  ⟨"VeloxDialogSaveOptions", [("title", .cstr), ("default_path", .cstr),
    ("default_name", .cstr), ("filters", .ptr (.structT ("VeloxDialogFilter"))),
    ("filter_count", .sizeT)], false⟩,
  ⟨"VeloxDialogSelection", [("paths", .ptr .cstrMut), ("count", .sizeT)], false⟩,
  ⟨"VeloxMessageDialogOptions", [("title", .cstr), ("message", .cstr),
    ("level", .enumT ("VeloxMessageDialogLevel")),
    ("buttons", .enumT ("VeloxMessageDialogButtons")),
    ("ok_label", .cstr), ("cancel_label", .cstr), ("yes_label", .cstr),
    ("no_label", .cstr)], false⟩,
  ⟨"VeloxConfirmDialogOptions", [("title", .cstr), ("message", .cstr),
    ("level", .enumT ("VeloxMessageDialogLevel")),
    ("ok_label", .cstr), ("cancel_label", .cstr)], false⟩,
  ⟨"VeloxAskDialogOptions", [("title", .cstr), ("message", .cstr),
    ("level", .enumT ("VeloxMessageDialogLevel")),
    ("yes_label", .cstr), ("no_label", .cstr)], false⟩,
  ⟨"VeloxPromptDialogOptions", [("title", .cstr), ("message", .cstr),
    ("placeholder", .cstr), ("default_value", .cstr),
    ("ok_label", .cstr), ("cancel_label", .cstr)], false⟩,
  ⟨"VeloxPromptDialogResult", [("value", .cstrMut), ("accepted", .boolT)], false⟩,
  ⟨"VeloxCustomProtocolHeader", [("name", .cstr), ("value", .cstr)], false⟩,
  ⟨"VeloxCustomProtocolHeaderList",
    [("headers", .ptr (.structT ("VeloxCustomProtocolHeader"))), ("count", .sizeT)], false⟩,
  ⟨"VeloxCustomProtocolBuffer", [("ptr", .ptr .u8), ("len", .sizeT)], false⟩,
  ⟨"VeloxCustomProtocolRequest", [("url", .cstr), ("method", .cstr),
    ("headers", .structT ("VeloxCustomProtocolHeaderList")),
    ("body", .structT ("VeloxCustomProtocolBuffer")), ("webview_id", .cstr)], false⟩,
  ⟨"VeloxCustomProtocolResponse", [("status", .u16),
    ("headers", .structT ("VeloxCustomProtocolHeaderList")),
    ("body", .structT ("VeloxCustomProtocolBuffer")), ("mime_type", .cstr),
    ("free", .funPtrT ("VeloxCustomProtocolResponseFree")), ("user_data", .voidPtr)], false⟩,
  ⟨"VeloxCustomProtocolDefinition", [("scheme", .cstr),
    ("handler", .funPtrT ("VeloxCustomProtocolHandler")), ("user_data", .voidPtr)], false⟩,
  ⟨"VeloxCustomProtocolList",
    [("protocols", .ptr (.structT ("VeloxCustomProtocolDefinition"))), ("count", .sizeT)], false⟩,
  ⟨"VeloxWebviewConfig", [("url", .cstr),
    ("custom_protocols", .structT ("VeloxCustomProtocolList")), ("is_child", .boolT),
    ("x", .f64), ("y", .f64), ("width", .f64), ("height", .f64)], false⟩,
  ⟨"VeloxColor", [("red", .u8), ("green", .u8), ("blue", .u8), ("alpha", .u8)], false⟩,
  ⟨"VeloxPoint", [("x", .f64), ("y", .f64)], false⟩,
  ⟨"VeloxSize", [("width", .f64), ("height", .f64)], false⟩
]

/-- An enum typedef of the ABI header: name and (enumerator, value) pairs. -/
structure CEnumDecl where
  name : String
  cases : List (String × Nat)
  appleOnly : Bool
deriving DecidableEq, Repr

/-- Every enum typedef of `velox_runtime_wry_ffi.h`, in header order. -/
def headerEnums : List CEnumDecl := [
  ⟨"VeloxEventLoopControlFlow",
    [("VELOX_CONTROL_FLOW_POLL", 0), ("VELOX_CONTROL_FLOW_WAIT", 1),
     ("VELOX_CONTROL_FLOW_EXIT", 2)], false⟩,
  ⟨"VeloxMessageDialogLevel",
    [("VELOX_MESSAGE_DIALOG_LEVEL_INFO", 0), ("VELOX_MESSAGE_DIALOG_LEVEL_WARNING", 1),
     ("VELOX_MESSAGE_DIALOG_LEVEL_ERROR", 2)], false⟩,
  ⟨"VeloxMessageDialogButtons",
    [("VELOX_MESSAGE_DIALOG_BUTTONS_OK", 0), ("VELOX_MESSAGE_DIALOG_BUTTONS_OK_CANCEL", 1),
     ("VELOX_MESSAGE_DIALOG_BUTTONS_YES_NO", 2),
     ("VELOX_MESSAGE_DIALOG_BUTTONS_YES_NO_CANCEL", 3)], false⟩,
  ⟨"VeloxWindowTheme",
    [("VELOX_WINDOW_THEME_UNSPECIFIED", 0), ("VELOX_WINDOW_THEME_LIGHT", 1),
     ("VELOX_WINDOW_THEME_DARK", 2)], false⟩,
  ⟨"VeloxUserAttentionType",
    [("VELOX_USER_ATTENTION_TYPE_INFORMATIONAL", 0),
     ("VELOX_USER_ATTENTION_TYPE_CRITICAL", 1)], false⟩,
  ⟨"VeloxResizeDirection",
    [("VELOX_RESIZE_DIRECTION_EAST", 0), ("VELOX_RESIZE_DIRECTION_NORTH", 1),
     ("VELOX_RESIZE_DIRECTION_NORTH_EAST", 2), ("VELOX_RESIZE_DIRECTION_NORTH_WEST", 3),
     ("VELOX_RESIZE_DIRECTION_SOUTH", 4), ("VELOX_RESIZE_DIRECTION_SOUTH_EAST", 5),
     ("VELOX_RESIZE_DIRECTION_SOUTH_WEST", 6), ("VELOX_RESIZE_DIRECTION_WEST", 7)], false⟩,
  ⟨"VeloxActivationPolicy",
    [("VELOX_ACTIVATION_POLICY_REGULAR", 0), ("VELOX_ACTIVATION_POLICY_ACCESSORY", 1),
     ("VELOX_ACTIVATION_POLICY_PROHIBITED", 2)], true⟩
]

/-- Size in bytes of a scalar C type, per the platforms this ABI targets
(LP64). -/
def csizeof : CType → Nat
  | .boolT => 1
  | .charT => 1
  | .u8 => 1
  | .u16 => 2
  | .u32 => 4
  | .f64 => 8
  | .sizeT => 8
  | .cstr => 8
  | .cstrMut => 8
  | .voidPtr => 8
  | .voidT => 0
  | .ptr _ => 8
  | .structT _ => 0
  | .enumT _ => 4
  | .funPtrT _ => 8

/-- Size in bytes of a struct of the header, as the sum of its field sizes
(exact for the single-`char` handle structs, which need no padding). -/
def structSize (n : String) : Nat :=
  match headerStructs.find? (fun s => s.name = n) with
  | some s => (s.fields.map (fun f => csizeof f.2)).sum
  | none => 0

/-- The opaque handle struct names of the header (base surface and Apple
menu surface). -/
def handleStructNames : List String := [
  "VeloxEventLoopHandle",
  "VeloxEventLoopProxyHandle",
  "VeloxWindowHandle",
  "VeloxWebviewHandle",
  "VeloxTrayHandle",
  "VeloxMenuBarHandle",
  "VeloxSubmenuHandle",
  "VeloxMenuItemHandle",
  "VeloxCheckMenuItemHandle",
  "VeloxSeparatorHandle"
]

/-!
## The shim.c trampolines

`velox_custom_protocol_handler_trampoline` and
`velox_custom_protocol_response_free_trampoline` are defined in `shim.c`; each
forwards its arguments to an `extern` host bridge
(`velox_custom_protocol_handler_bridge` /
`velox_custom_protocol_response_bridge`) that lives in the host, not in this
repository.  The bridges are therefore parameters of the embedding, and the
pointer arguments are kept as opaque type parameters: the trampolines never
inspect them.
-/

/-- Embedding of `velox_custom_protocol_handler_trampoline` (`shim.c` lines
11-17): `return velox_custom_protocol_handler_bridge(request, response,
user_data);`. -/
def velox_custom_protocol_handler_trampoline {Req Resp UD : Type}
    (bridge : Req → Resp → UD → Bool)
    (request : Req) (response : Resp) (user_data : UD) : Bool :=
  bridge request response user_data

/-- Embedding of `velox_custom_protocol_response_free_trampoline` (`shim.c`
lines 19-21): `velox_custom_protocol_response_bridge(user_data);`.  The
bridge's observable effect is abstracted as its result value. -/
def velox_custom_protocol_response_free_trampoline {UD Eff : Type}
    (bridge : UD → Eff) (user_data : UD) : Eff :=
  bridge user_data

/-- The event-loop control-flow decisions of `VeloxEventLoopControlFlow`. -/
inductive VeloxEventLoopControlFlow where
  | poll
  | wait
  | exit
deriving DecidableEq, Repr

/-- The integer value of each enumerator, as fixed in the header. -/
def controlFlowCode : VeloxEventLoopControlFlow → Nat
  | .poll => 0
  | .wait => 1
  | .exit => 2

/-!
## Spec-modelled runtime behaviour

The functions declared by the header are implemented in a Rust static library
that is not part of this repository; only their declarations are.  The
definitions below model, from the specification, the parts of that behaviour
the claims need: the NULL-handle contract, the prompt-dialog result, and the
dialog result free functions.
-/

/-- A value returned across the ABI, abstracted: a boolean, a (possibly NULL)
pointer, a struct return (`zeroed = true` when every field is zero), or a
`void` return. -/
inductive RetValue where
  | boolean (b : Bool)
  | pointer (p : Option Nat)
  | structVal (n : String) (zeroed : Bool)
  | unitVal
deriving DecidableEq, Repr

/-- The failure sentinel of a return type: `false` for `bool`, `NULL` for
pointers, a zero-valued struct for struct returns, nothing for `void`. -/
def sentinel : CType → RetValue
  | .boolT => .boolean false
  | .ptr _ => .pointer none
  | .cstr => .pointer none
  | .cstrMut => .pointer none
  | .voidPtr => .pointer none
  | .funPtrT _ => .pointer none
  | .structT n => .structVal n true
  | _ => .unitVal

/-- Return type of a header function, by name. -/
def retOf (n : String) : CType :=
  match headerFuns.find? (fun f => f.name = n) with
  | some f => f.ret
  | none => .voidT

/-- Whether a declared function takes a handle as its first argument. -/
def takesHandleFirst (f : CFunDecl) : Bool :=
  match f.args with
  | CType.ptr (CType.structT n) :: _ => handleStructNames.contains n
  | _ => false

/-- The names of the header functions whose first argument is a handle. -/
def handleTakingNames : List String :=
  (headerFuns.filter takesHandleFirst).map (fun f => f.name)

/-- Modelled from the spec: the Rust implementations behind the header are not
in this repository.  Per the spec, "NULL handles to any function are accepted
as a no-op returning false or a zero-valued result"; a call on a NULL handle
leaves the library state untouched and returns the failure sentinel of the
function's return type, while a call on a live handle is whatever the (opaque)
implementation does. -/
def veloxCall {σ : Type} (impl : String → Nat → σ → σ × RetValue)
    (fname : String) (handle : Option Nat) (s : σ) : σ × RetValue :=
  match handle with
  | none => (s, sentinel (retOf fname))
  | some h => impl fname h s

/-- The `VeloxPromptDialogResult` struct, with `char* value` modelled as an
optional string (`none` = NULL). -/
structure VeloxPromptDialogResultM where
  value : Option String
  accepted : Bool
deriving DecidableEq, Repr

/-- Modelled from the spec: `velox_dialog_prompt` is implemented in the Rust
library.  The user's decision is the input: `none` models cancel, `some s`
models accepting with text `s`.  "On cancel, accepted=false, value=NULL." -/
def velox_dialog_prompt (decision : Option String) : VeloxPromptDialogResultM :=
  match decision with
  | none => ⟨none, false⟩
  | some s => ⟨some s, true⟩

/-- The `VeloxDialogSelection` struct, with `char** paths` modelled as an
optional allocation id (`none` = NULL) plus the `count` field. -/
structure VeloxDialogSelectionM where
  paths : Option Nat
  count : Nat
deriving DecidableEq, Repr

/-- A zero-initialized `VeloxDialogSelection`. -/
def zeroSelection : VeloxDialogSelectionM := ⟨none, 0⟩

/-- The `VeloxPromptDialogResult` struct viewed by its allocation: `char*
value` as an optional allocation id. -/
structure VeloxPromptDialogResultAllocM where
  value : Option Nat
  accepted : Bool
deriving DecidableEq, Repr

/-- A zero-initialized `VeloxPromptDialogResult`. -/
def zeroPromptResult : VeloxPromptDialogResultAllocM := ⟨none, false⟩

/-- Modelled from the spec: `velox_dialog_selection_free` is implemented in
the Rust library.  The heap is the list of live allocation ids; freeing a
NULL `paths` is a no-op, freeing a live allocation removes it, and freeing a
non-live allocation is a double-free fault (`none`). -/
def velox_dialog_selection_free (heap : List Nat) (s : VeloxDialogSelectionM) :
    Option (List Nat) :=
  match s.paths with
  | none => some heap
  | some p => if p ∈ heap then some (heap.erase p) else none

/-- Modelled from the spec: `velox_dialog_prompt_result_free` is implemented
in the Rust library; same allocation discipline as
`velox_dialog_selection_free`, applied to the `value` string. -/
def velox_dialog_prompt_result_free (heap : List Nat)
    (r : VeloxPromptDialogResultAllocM) : Option (List Nat) :=
  match r.value with
  | none => some heap
  | some p => if p ∈ heap then some (heap.erase p) else none

/-- Argument types of the `VeloxEventLoopCallback` typedef (header line 265):
the event description string and the `void* user_data`. -/
def veloxEventLoopCallbackArgs : List CType := [.cstr, .voidPtr]

/-- Return type of the `VeloxEventLoopCallback` typedef. -/
def veloxEventLoopCallbackRet : CType := .enumT ("VeloxEventLoopControlFlow")

/-- The eleven `velox_window_is_*` boolean state getters, in header order. -/
def bareBoolGetterNames : List String := [
  "velox_window_is_fullscreen",
  "velox_window_is_focused",
  "velox_window_is_maximized",
  "velox_window_is_minimized",
  "velox_window_is_visible",
  "velox_window_is_resizable",
  "velox_window_is_decorated",
  "velox_window_is_always_on_top",
  "velox_window_is_minimizable",
  "velox_window_is_maximizable",
  "velox_window_is_closable"
]

/-- The out-parameter window getters and the type of their out-parameter. -/
def outParamGetterSpecs : List (String × CType) := [
  ("velox_window_scale_factor", .ptr .f64),
  ("velox_window_inner_position", .ptr (.structT ("VeloxPoint"))),
  ("velox_window_outer_position", .ptr (.structT ("VeloxPoint"))),
  ("velox_window_inner_size", .ptr (.structT ("VeloxSize"))),
  ("velox_window_outer_size", .ptr (.structT ("VeloxSize"))),
  ("velox_window_cursor_position", .ptr (.structT ("VeloxPoint")))
]

/-!
## Claim theorems
-/

/-- Claim C1: for every request pointer, response pointer and user_data
pointer, `velox_custom_protocol_handler_trampoline` passes all three arguments
unchanged to the host-registered handler (via
`velox_custom_protocol_handler_bridge`) and returns exactly the boolean the
handler returns; and for every user_data pointer,
`velox_custom_protocol_response_free_trampoline` forwards that same pointer
unchanged to the host's free (via `velox_custom_protocol_response_bridge`). -/
theorem claim1_trampolines_forward_exactly :
    (∀ (Req Resp UD : Type) (bridge : Req → Resp → UD → Bool)
        (request : Req) (response : Resp) (user_data : UD),
        velox_custom_protocol_handler_trampoline bridge request response user_data
          = bridge request response user_data) ∧
    (∀ (UD Eff : Type) (bridge : UD → Eff) (user_data : UD),
        velox_custom_protocol_response_free_trampoline bridge user_data
          = bridge user_data) :=
  ⟨fun _ _ _ _ _ _ _ => rfl, fun _ _ _ _ => rfl⟩

/-- Claim C2 is false on the code: the header declares only three of the four
version-and-identity getters.  `velox_runtime_wry_library_name`,
`velox_runtime_wry_crate_version` and `velox_runtime_wry_webview_version` are
declared returning `const char*`, but `velox_runtime_wry_ffi_abi_version` is
not declared anywhere in the header (on either platform), even though
`shim.c`'s link helper references it — so `shim.c` references an undeclared
identifier. -/
theorem claim2_abi_version_missing_from_header :
    retOf ("velox_runtime_wry_library_name") = CType.cstr ∧
    retOf ("velox_runtime_wry_crate_version") = CType.cstr ∧
    retOf ("velox_runtime_wry_webview_version") = CType.cstr ∧
    "velox_runtime_wry_library_name" ∈ declaredNames false ∧
    "velox_runtime_wry_crate_version" ∈ declaredNames false ∧
    "velox_runtime_wry_webview_version" ∈ declaredNames false ∧
    "velox_runtime_wry_ffi_abi_version" ∉ declaredNames true ∧
    "velox_runtime_wry_ffi_abi_version" ∉ declaredNames false ∧
    "velox_runtime_wry_ffi_abi_version" ∈ linkHelperRefs false := by
  refine ⟨rfl, rfl, rfl, by decide, by decide, by decide, by decide, by decide, by decide⟩

set_option maxHeartbeats 4000000 in
/-- Claim C3 is false on the code: the link helper does not reference every
function the header declares (`velox_webview_identifier` and
`velox_webview_set_bounds` are never referenced on any platform, and
`velox_app_state_force_launched` is never referenced on Apple), and it
references names the header does not declare
(`velox_runtime_wry_ffi_abi_version` everywhere, and e.g.
`velox_icon_menu_item_new` among 30+ menu names under the Apple guard). -/
theorem claim3_link_helper_mismatch :
    (declaredNames true).filter (fun n => !(linkHelperRefs true).contains n)
      = ["velox_webview_identifier", "velox_webview_set_bounds",
         "velox_app_state_force_launched"] ∧
    (declaredNames false).filter (fun n => !(linkHelperRefs false).contains n)
      = ["velox_webview_identifier", "velox_webview_set_bounds"] ∧
    "velox_runtime_wry_ffi_abi_version" ∈ linkHelperRefs false ∧
    "velox_runtime_wry_ffi_abi_version" ∉ declaredNames true ∧
    "velox_icon_menu_item_new" ∈ linkHelperRefs true ∧
    "velox_icon_menu_item_new" ∉ declaredNames true := by
  refine ⟨by decide, by decide, by decide, by decide, by decide, by decide⟩

set_option maxHeartbeats 4000000 in
/-- Claim C4 is false on the code: the header does hide every Apple-only
declaration behind `__APPLE__`, but `shim.c`'s link helper references five of
those Apple-only functions (the four event-loop activation/dock/hide/show
functions and `velox_tray_set_menu`) outside its own `__APPLE__` guard, so a
non-Apple build of the translation unit references identifiers that are not
declared. -/
theorem claim4_apple_symbols_outside_guard :
    "velox_event_loop_set_activation_policy" ∈ linkHelperRefs false ∧
    "velox_event_loop_set_dock_visibility" ∈ linkHelperRefs false ∧
    "velox_event_loop_hide_application" ∈ linkHelperRefs false ∧
    "velox_event_loop_show_application" ∈ linkHelperRefs false ∧
    "velox_tray_set_menu" ∈ linkHelperRefs false ∧
    "velox_event_loop_set_activation_policy" ∉ declaredNames false ∧
    "velox_tray_set_menu" ∉ declaredNames false ∧
    "velox_tray_set_menu" ∈ declaredNames true ∧
    (linkHelperRefs false).filter
        (fun n => headerFuns.any (fun f => f.appleOnly && (f.name == n)))
      = ["velox_event_loop_set_activation_policy", "velox_event_loop_set_dock_visibility",
         "velox_event_loop_hide_application", "velox_event_loop_show_application",
         "velox_tray_set_menu"] := by
  refine ⟨by decide, by decide, by decide, by decide, by decide, by decide, by decide,
    by decide, by decide⟩

/-- Claim C5: `VeloxEventLoopControlFlow` admits exactly the three decisions
POLL, WAIT and EXIT with fixed encodings 0, 1 and 2, and
`velox_event_loop_pump` takes an event-loop handle, a callback of the
`VeloxEventLoopCallback` shape and a `void* user_data`. -/
theorem claim5_control_flow_enum_and_pump :
    controlFlowCode VeloxEventLoopControlFlow.poll = 0 ∧
    controlFlowCode VeloxEventLoopControlFlow.wait = 1 ∧
    controlFlowCode VeloxEventLoopControlFlow.exit = 2 ∧
    (∀ c : VeloxEventLoopControlFlow,
        c = VeloxEventLoopControlFlow.poll ∨ c = VeloxEventLoopControlFlow.wait ∨
          c = VeloxEventLoopControlFlow.exit) ∧
    headerEnums.find? (fun e => e.name = "VeloxEventLoopControlFlow")
      = some ⟨"VeloxEventLoopControlFlow",
          [("VELOX_CONTROL_FLOW_POLL", 0), ("VELOX_CONTROL_FLOW_WAIT", 1),
           ("VELOX_CONTROL_FLOW_EXIT", 2)], false⟩ ∧
    headerFuns.find? (fun f => f.name = "velox_event_loop_pump")
      = some ⟨"velox_event_loop_pump",
          [elp, CType.funPtrT ("VeloxEventLoopCallback"), CType.voidPtr],
          CType.voidT, false⟩ ∧
    veloxEventLoopCallbackArgs = [CType.cstr, CType.voidPtr] ∧
    veloxEventLoopCallbackRet = CType.enumT ("VeloxEventLoopControlFlow") := by
  refine ⟨rfl, rfl, rfl, ?_, by decide, by decide, rfl, rfl⟩
  intro c
  cases c
  exacts [Or.inl rfl, Or.inr (Or.inl rfl), Or.inr (Or.inr rfl)]

/-- Claim C6: calling any handle-taking function of the ABI with a NULL handle
leaves the library state untouched and returns the failure sentinel of its
return type (`false` for bool, NULL for pointers, a zero-valued struct for
struct returns), and the two C trampolines never dereference a NULL argument
before the host bridge is reached (they pass NULL through unchanged). -/
theorem claim6_null_handle_noop :
    (∀ (σ : Type) (impl : String → Nat → σ → σ × RetValue) (s : σ) (fname : String),
        fname ∈ handleTakingNames →
        veloxCall impl fname none s = (s, sentinel (retOf fname))) ∧
    sentinel CType.boolT = RetValue.boolean false ∧
    sentinel wnp = RetValue.pointer none ∧
    sentinel (CType.structT ("VeloxDialogSelection"))
      = RetValue.structVal ("VeloxDialogSelection") true ∧
    (∀ (Resp UD : Type) (bridge : Option Nat → Resp → UD → Bool)
        (response : Resp) (user_data : UD),
        velox_custom_protocol_handler_trampoline bridge none response user_data
          = bridge none response user_data) ∧
    (∀ (Eff : Type) (bridge : Option Nat → Eff),
        velox_custom_protocol_response_free_trampoline bridge none = bridge none) :=
  ⟨fun _ _ _ _ _ => rfl, rfl, rfl, rfl, fun _ _ _ _ _ => rfl, fun _ _ => rfl⟩

/-- Witness for C6: calling `velox_window_set_title` on a NULL handle in a
concrete state returns `false` and leaves the state at 0. -/
theorem claim6_null_handle_noop_witness :
    veloxCall (fun (_ : String) (_ : Nat) (st : Nat) => (st, RetValue.unitVal))
        ("velox_window_set_title") none 0 = (0, RetValue.boolean false) :=
  claim6_null_handle_noop.1 Nat (fun _ _ st => (st, RetValue.unitVal)) 0
    ("velox_window_set_title") (by decide)

/-- Claim C7: `velox_dialog_prompt` returns a `VeloxPromptDialogResult` of
exactly a `char* value` and a one-byte `bool accepted`; on cancel the result
is `accepted = false`, `value = NULL`; and the result is released with
`velox_dialog_prompt_result_free`, which takes the struct by value. -/
theorem claim7_prompt_dialog_result :
    headerStructs.find? (fun s => s.name = "VeloxPromptDialogResult")
      = some ⟨"VeloxPromptDialogResult",
          [("value", CType.cstrMut), ("accepted", CType.boolT)], false⟩ ∧
    csizeof CType.boolT = 1 ∧
    retOf ("velox_dialog_prompt") = CType.structT ("VeloxPromptDialogResult") ∧
    velox_dialog_prompt none = ⟨none, false⟩ ∧
    (∀ s : String, velox_dialog_prompt (some s) = ⟨some s, true⟩) ∧
    headerFuns.find? (fun f => f.name = "velox_dialog_prompt_result_free")
      = some ⟨"velox_dialog_prompt_result_free",
          [CType.structT ("VeloxPromptDialogResult")], CType.voidT, false⟩ := by
  refine ⟨by decide, rfl, by decide, rfl, fun s => rfl, by decide⟩

/-- Claim C8: freeing a zero-initialized dialog result is a no-op that may be
repeated, freeing the same non-zero result twice is a double-free fault, and
both free functions receive the result struct by value (so the caller's copy
cannot be reset by the callee). -/
theorem claim8_dialog_free_discipline :
    (∀ heap : List Nat, velox_dialog_selection_free heap zeroSelection = some heap) ∧
    (∀ heap : List Nat,
        velox_dialog_prompt_result_free heap zeroPromptResult = some heap) ∧
    (∀ (heap : List Nat) (p c : Nat), p ∈ heap → heap.Nodup →
        (velox_dialog_selection_free heap ⟨some p, c⟩).bind
          (fun h2 => velox_dialog_selection_free h2 ⟨some p, c⟩) = none) ∧
    (∀ (heap : List Nat) (p : Nat) (b : Bool), p ∈ heap → heap.Nodup →
        (velox_dialog_prompt_result_free heap ⟨some p, b⟩).bind
          (fun h2 => velox_dialog_prompt_result_free h2 ⟨some p, b⟩) = none) ∧
    headerFuns.find? (fun f => f.name = "velox_dialog_selection_free")
      = some ⟨"velox_dialog_selection_free",
          [CType.structT ("VeloxDialogSelection")], CType.voidT, false⟩ ∧
    headerFuns.find? (fun f => f.name = "velox_dialog_prompt_result_free")
      = some ⟨"velox_dialog_prompt_result_free",
          [CType.structT ("VeloxPromptDialogResult")], CType.voidT, false⟩ := by
  refine ⟨fun heap => rfl, fun heap => rfl, ?_, ?_, by decide, by decide⟩
  · intro heap p c hp hnd
    have h1 : velox_dialog_selection_free heap ⟨some p, c⟩ = some (heap.erase p) := by
      simp [velox_dialog_selection_free, hp]
    rw [h1, Option.bind]
    simp [velox_dialog_selection_free, hnd.not_mem_erase]
  · intro heap p b hp hnd
    have h1 : velox_dialog_prompt_result_free heap ⟨some p, b⟩ = some (heap.erase p) := by
      simp [velox_dialog_prompt_result_free, hp]
    rw [h1, Option.bind]
    simp [velox_dialog_prompt_result_free, hnd.not_mem_erase]

/-- Witness for C8: a concrete double free of a live allocation faults, for
both free functions. -/
theorem claim8_dialog_free_discipline_witness :
    (velox_dialog_selection_free [5] ⟨some 5, 1⟩).bind
        (fun h2 => velox_dialog_selection_free h2 ⟨some 5, 1⟩) = none ∧
    (velox_dialog_prompt_result_free [7] ⟨some 7, true⟩).bind
        (fun h2 => velox_dialog_prompt_result_free h2 ⟨some 7, true⟩) = none :=
  ⟨claim8_dialog_free_discipline.2.2.1 [5] 5 1 (by decide) (by decide),
   claim8_dialog_free_discipline.2.2.2.1 [7] 7 true (by decide) (by decide)⟩

/-- Claim C9: the eleven `velox_window_is_*` getters (and exactly those) are
declared as taking only the window handle and returning a bare `bool` with no
out-parameter, so on a NULL handle their failure value coincides with the
property genuinely being false; the out-parameter getters instead return a
success `bool` separately from the queried value written through a pointer. -/
theorem claim9_bool_getters_no_out_param :
    (bareBoolGetterNames.all (fun n =>
        headerFuns.find? (fun f => f.name = n)
          == some ⟨n, [wnp], CType.boolT, false⟩)) = true ∧
    (headerFuns.filter (fun f => f.name.data.take 16 == ("velox_window_is_").data)).map
        (fun f => f.name) = bareBoolGetterNames ∧
    (outParamGetterSpecs.all (fun pr =>
        headerFuns.find? (fun f => f.name = pr.1)
          == some ⟨pr.1, [wnp, pr.2], CType.boolT, false⟩)) = true ∧
    (∀ (σ : Type) (impl : String → Nat → σ → σ × RetValue) (s : σ) (n : String),
        n ∈ bareBoolGetterNames →
        (veloxCall impl n none s).2 = RetValue.boolean false) ∧
    (∀ (σ : Type) (s : σ),
        (veloxCall (fun _ _ st => (st, RetValue.boolean false))
            ("velox_window_is_fullscreen") (some 1) s).2
          = (veloxCall (fun _ _ st => (st, RetValue.boolean false))
            ("velox_window_is_fullscreen") none s).2) := by
  refine ⟨by decide, by decide, by decide, ?_, fun σ s => rfl⟩
  intro σ impl s n hn
  fin_cases hn <;> rfl

/-- Witness for C9: querying `velox_window_is_visible` through a NULL handle
returns the same `false` as a genuine negative answer. -/
theorem claim9_bool_getters_no_out_param_witness :
    (veloxCall (fun (_ : String) (_ : Nat) (st : Nat) => (st, RetValue.unitVal))
        ("velox_window_is_visible") none 3).2 = RetValue.boolean false :=
  claim9_bool_getters_no_out_param.2.2.2.1 Nat (fun _ _ st => (st, RetValue.unitVal)) 3
    ("velox_window_is_visible") (by decide)

/-- Claim C10: each handle family is its own struct type with the single field
`char _unused` (size one byte for all of them), the ten handle struct names
are pairwise distinct, the five Apple menu handles are declared under
`__APPLE__` and the five base handles are not. -/
theorem claim10_distinct_handle_structs :
    (handleStructNames.all (fun n =>
        (headerStructs.find? (fun s => s.name = n)).map (fun s => s.fields)
          == some [("_unused", CType.charT)])) = true ∧
    handleStructNames.Nodup ∧
    (handleStructNames.all (fun n => structSize n == 1)) = true ∧
    (["VeloxMenuBarHandle", "VeloxSubmenuHandle", "VeloxMenuItemHandle",
      "VeloxCheckMenuItemHandle", "VeloxSeparatorHandle"].all (fun n =>
        (headerStructs.find? (fun s => s.name = n)).map (fun s => s.appleOnly)
          == some true)) = true ∧
    (["VeloxEventLoopHandle", "VeloxEventLoopProxyHandle", "VeloxWindowHandle",
      "VeloxWebviewHandle", "VeloxTrayHandle"].all (fun n =>
        (headerStructs.find? (fun s => s.name = n)).map (fun s => s.appleOnly)
          == some false)) = true := by
  refine ⟨by decide, by decide, by decide, by decide, by decide⟩

end Velox
